import Mathlib

/-!
# Verification of the EB1-India visa-bulletin extraction pipeline

A shallow embedding of `src/fetch.py`:

* an HTML table (as produced by BeautifulSoup's parse of a bulletin) is
  modelled as the list of its `tr` rows, each row the list of the raw texts
  of its `td` cells (`get_text(strip=True)` is modelled by whitespace
  trimming per cell, adequate for flat text cells); string operations are
  re-implemented by structural recursion on the character list so that
  every definition evaluates by kernel reduction;
* a parsed document is the list of its tables in document order;
* Python's `datetime` values at midnight are modelled by a plain
  year/month/day record; the constructor's year-range check
  `1 ≤ year ≤ 9999` is modelled explicitly where a year can leave the
  range (the corpus scan's `datetime(int(year), month_index, 1)`), and is
  omitted where it cannot (`strptime` only ever builds years 1969–2068);
* `datetime.strptime(s, "%d%b%y")` is modelled by `pyStrptimeDMY`, including
  the documented optional leading zero of `%d`, the case-insensitive
  three-letter month abbreviation of `%b`, the 1969–2068 pivot of `%y`,
  whole-string matching, and the calendar-validity check of the final
  `datetime` construction;
* the one uncaught exception path of the extractor (a `<table>` element with
  no `tr` at all makes `table.find("tr")` return `None`, and
  `None.find_all("td")` raises `AttributeError`) is modelled with
  `Except String`.
-/

namespace VisaBulletins

/-- A calendar date (Python `datetime` at midnight: year, month 1–12, day). -/
structure Date where
  year : Int
  month : Nat
  day : Nat
deriving DecidableEq, Repr

/-- A `<table>` element: the stripped cell texts of each of its `tr` rows. -/
structure Table where
  rows : List (List String)
deriving DecidableEq, Repr

/-- `MONTHS` from `fetch.py`: lowercase month names, January first. -/
def MONTHS : List String :=
  ["january", "february", "march", "april", "may", "june",
   "july", "august", "september", "october", "november", "december"]

/-- The C-locale month abbreviations matched by `strptime`'s `%b`. -/
def monthAbbrs : List String :=
  ["jan", "feb", "mar", "apr", "may", "jun",
   "jul", "aug", "sep", "oct", "nov", "dec"]

/-- Python's substring test `needle in hay` on the character lists. -/
def hasSub (hay needle : List Char) : Bool :=
  needle.isPrefixOf hay ||
    match hay with
    | [] => false
    | _ :: t => hasSub t needle

/-- Python's `needle in hay` on strings. -/
def pyIn (needle hay : String) : Bool :=
  hasSub hay.data needle.data

/-- Python's `str.strip` on the character list: drop whitespace from both
ends. -/
def trimChars (l : List Char) : List Char :=
  ((l.dropWhile Char.isWhitespace).reverse.dropWhile Char.isWhitespace).reverse

/-- Python's `str.upper` per character. -/
def upperChars (l : List Char) : List Char := l.map Char.toUpper

/-- Python's `str.lower` per character. -/
def lowerChars (l : List Char) : List Char := l.map Char.toLower

/-- `get_text(strip=True)` of a flat text cell. -/
def cellText (s : String) : String := String.mk (trimChars s.data)

/-- Python's `str.endswith`. -/
def pyEndsWith (s suffix : String) : Bool :=
  suffix.data.reverse.isPrefixOf s.data.reverse

/-- Python's `str.replace` (all occurrences, left to right), written with a
fuel argument to keep the recursion structural; one character is consumed
per step, so fuel equal to the input length is exact for a non-empty
pattern (the only use is the pattern `".html"`). -/
def replaceAllFuel (pat rep : List Char) : Nat → List Char → List Char
  | 0, l => l
  | _ + 1, [] => []
  | fuel + 1, c :: rest =>
    if pat.isPrefixOf (c :: rest) then
      rep ++ replaceAllFuel pat rep fuel ((c :: rest).drop pat.length)
    else c :: replaceAllFuel pat rep fuel rest

/-- Python's `str.replace` on strings. -/
def pyReplace (s pat rep : String) : String :=
  String.mk (replaceAllFuel pat.data rep.data s.data.length s.data)

/-- Gregorian leap-year rule (as in Python's `calendar`/`datetime`). -/
def isLeapYear (y : Int) : Bool :=
  y % 4 == 0 && (y % 100 != 0 || y % 400 == 0)

/-- Number of days of month `m` (1–12) in year `y`. -/
def daysInMonth (y : Int) (m : Nat) : Nat :=
  if m = 2 then (if isLeapYear y then 29 else 28)
  else if m = 4 || m = 6 || m = 9 || m = 11 then 30
  else 31

/-- Numeric value of a decimal digit character. -/
def digitVal (c : Char) : Nat := c.toNat - 48

/-- Tail of `strptime(s, "%d%b%y")` once the day has been consumed: exactly a
three-letter month abbreviation (case-insensitive) followed by exactly two
year digits, then end of string; `%y` maps 00–68 to 2000–2068 and 69–99 to
1969–1999; finally `datetime(year, month, day)` validates the day against
the month length. -/
def finishDMY (day : Nat) : List Char → Option Date
  | [m1, m2, m3, y1, y2] =>
    let mstr := String.mk [m1.toLower, m2.toLower, m3.toLower]
    match monthAbbrs.findIdx? (fun a => a == mstr) with
    | none => none
    | some mi =>
      if y1.isDigit && y2.isDigit then
        let yy := digitVal y1 * 10 + digitVal y2
        let year : Int := if yy ≤ 68 then 2000 + yy else 1900 + yy
        if 1 ≤ day && day ≤ daysInMonth year (mi + 1) then
          some ⟨year, mi + 1, day⟩
        else none
      else none
  | _ => none

/-- `datetime.strptime(s, "%d%b%y")`, returning `none` where Python raises
`ValueError`.  `%d` consumes two digits when the first two characters are
digits (the value must then be a calendar day), else a single nonzero digit
(the documented optional leading zero).  When the first two characters are
digits but do not form a valid day, backtracking to a one-digit day cannot
succeed (the month position would start with a digit), so the parse fails. -/
def pyStrptimeDMY (s : String) : Option Date :=
  match s.data with
  | c1 :: c2 :: rest =>
    if c1.isDigit && c2.isDigit then
      let day := digitVal c1 * 10 + digitVal c2
      if 1 ≤ day && day ≤ 31 then finishDMY day rest else none
    else if c1.isDigit && c1 != '0' then
      finishDMY (digitVal c1) (c2 :: rest)
    else none
  | _ => none

/-- Decoding of the India cell text, `fetch.py` lines 148–156: `"C"` yields
the bulletin date, `"U"` yields `None`, anything else is `strptime`d with
`ValueError` caught to `None`. -/
def decodeIndiaCode (code : String) (bulletin_date : Date) : Option Date :=
  if code = "C" then some bulletin_date
  else if code = "U" then none
  else pyStrptimeDMY code

/-- The header predicate of line 137: `"INDIA" in header.get_text(strip=True).upper()`. -/
def isIndiaHeader (h : String) : Bool :=
  hasSub (upperChars (trimChars h.data)) "INDIA".data

/-- `next((i for i, h in enumerate(headers) if p h), None)`: index of the
first element satisfying `p`, counting from `i`. -/
def pyNextIndex (p : String → Bool) (i : Nat) : List String → Option Nat
  | [] => none
  | h :: t => if p h then some i else pyNextIndex p (i + 1) t

/-- The row guard of line 145: `cells and cells[0].get_text(strip=True).lower() == "1st"`. -/
def isFirst1stCell (cells : List String) : Bool :=
  !cells.isEmpty && lowerChars (trimChars (cells.headD "").data) == "1st".data

/-- The cell-count guard of line 146: `len(cells) > india_column_index`. -/
def rowReaches (idx : Nat) (cells : List String) : Bool :=
  decide (idx < cells.length)

/-- The row loop of lines 143–157 over the data rows (`find_all("tr")[1:]`):
the first row passing both guards supplies the decoded cell; a `"1st"` row
with too few cells is passed over; if no row qualifies the loop falls
through to `return []`. -/
def scanRows (idx : Nat) (bd : Date) : List (List String) → List (Option Date)
  | [] => []
  | cells :: rest =>
    if isFirst1stCell cells then
      if rowReaches idx cells then
        [decodeIndiaCode (cellText (cells.getD idx "")) bd]
      else scanRows idx bd rest
    else scanRows idx bd rest

/-- `extract_eb1_dates_from_table` (lines 123–157).  A table with no rows
models a `<table>` with no `tr`: `table.find("tr")` is `None` and
`None.find_all` raises `AttributeError`, which nothing catches. -/
def extract_eb1_dates_from_table (table : Table) (bulletin_date : Date) :
    Except String (List (Option Date)) :=
  match table.rows with
  | [] => .error "AttributeError"
  | header_row :: data_rows =>
    match pyNextIndex isIndiaHeader 0 header_row with
    | none => .ok []
    | some idx => .ok (scanRows idx bulletin_date data_rows)

/-- The table loop of lines 174–179: append the head of each non-empty
extraction, break once two dates are collected. -/
def scanTables (bd : Date) : List Table → List (Option Date) →
    Except String (List (Option Date))
  | [], dates => .ok dates
  | t :: ts, dates =>
    match extract_eb1_dates_from_table t bd with
    | .error e => .error e
    | .ok extracted =>
      match extracted with
      | [] => scanTables bd ts dates
      | x :: _ =>
        if (dates ++ [x]).length = 2 then .ok (dates ++ [x])
        else scanTables bd ts (dates ++ [x])

/-- The padding loop of lines 180–181: `while len(dates) < 2: dates.append(None)`. -/
def padTwo (l : List (Option Date)) : List (Option Date) :=
  l ++ List.replicate (2 - l.length) none

/-- `extract_eb1_final_action_and_filing_dates_from_html` (lines 160–182),
on the already-parsed list of tables. -/
def extract_eb1_final_action_and_filing_dates_from_html
    (tables : List Table) (bulletin_date : Date) :
    Except String (List (Option Date)) :=
  match scanTables bulletin_date tables [] with
  | .error e => .error e
  | .ok dates => .ok (padTwo dates)

/-! ## Corpus scan (`collect_and_plot_eb1_dates`, lines 185–218)

The filesystem walk is modelled by a list of stored documents, each carrying
the basename of its year directory, its file name, and its parsed content.
Python sorts the `(datetime, file_path)` pairs; the sort is modelled as a
stable insertion sort on the date component (the file-path tiebreak of the
tuple order can only reorder entries with equal bulletin dates, which agree
in the date anyway).  The `eb1_dates` dict is modelled as an association
list with insert-or-update-in-place, Python's key-insertion order. -/

/-- One file found under `SAVE_DIR`: the year-directory basename, the file
name, and the parsed tables of its content. -/
structure StoredDoc where
  yearSeg : String
  fileName : String
  content : List Table
deriving DecidableEq, Repr

/-- Unicode digit-property test of Python's `str.isdigit`, over the character
repertoire modelled here: the ASCII decimal digits together with the Latin-1
superscript digits, which Python classes as digits although `int` rejects
them.  The full Unicode digit table is outside the embedding. -/
def pyIsDigitChar (c : Char) : Bool :=
  c.isDigit || c == '¹' || c == '²' || c == '³'

/-- Python's `str.isdigit`: non-empty and every character of digit class. -/
def pyIsDigit (s : String) : Bool :=
  !s.isEmpty && s.data.all pyIsDigitChar

/-- Decimal value of a string of ASCII decimal digits. -/
def digitsToNat (s : String) : Nat :=
  s.data.foldl (fun n c => n * 10 + digitVal c) 0

/-- Python's `int(s)`: succeeds exactly on the decimal digits of the
modelled repertoire (the ASCII ones); on a digit-classed segment containing
a non-decimal digit such as a superscript, `int` raises `ValueError` even
though `isdigit` was true, modelled as `none`. -/
def pyInt (s : String) : Option Nat :=
  if !s.isEmpty && s.data.all Char.isDigit then some (digitsToNat s) else none

/-- Lines 194–203 for one file: skip unless the year directory passes
`isdigit` and `int(year)` is within the window (`int(year) < now.year -
past_years` skips), and the file is `<month>.html` for a known month;
then `datetime(int(year), month_index, 1)` (line 201) builds the bulletin
date.  Two uncaught `ValueError` paths are modelled as `Except.error`:
`int()` on a digit-classed segment it cannot parse, and the `datetime`
constructor's year-range check `1 ≤ year ≤ 9999`. -/
def keyOf (now_year past_years : Int) (d : StoredDoc) :
    Except String (Option (Date × StoredDoc)) :=
  if !pyIsDigit d.yearSeg then .ok none
  else
    match pyInt d.yearSeg with
    | none => .error "ValueError"
    | some y =>
      if (y : Int) < now_year - past_years then .ok none
      else if pyEndsWith d.fileName ".html" &&
          MONTHS.contains (pyReplace d.fileName ".html" "") then
        if 1 ≤ y && y ≤ 9999 then
          .ok (some (⟨(y : Int),
            MONTHS.findIdx (fun m => m == pyReplace d.fileName ".html" "") + 1, 1⟩, d))
        else .error "ValueError"
      else .ok none

/-- The walk of lines 192–203: every stored file that passes the filters,
paired with its bulletin date; the first `ValueError` aborts the walk. -/
def collectBulletins (now_year past_years : Int) :
    List StoredDoc → Except String (List (Date × StoredDoc))
  | [] => .ok []
  | d :: rest =>
    match keyOf now_year past_years d with
    | .error e => .error e
    | .ok none => collectBulletins now_year past_years rest
    | .ok (some p) =>
      match collectBulletins now_year past_years rest with
      | .error e => .error e
      | .ok l => .ok (p :: l)

/-- Chronological order on dates (Python compares `datetime` field by field). -/
def dateLe (a b : Date) : Prop :=
  a.year < b.year ∨
    (a.year = b.year ∧ (a.month < b.month ∨ (a.month = b.month ∧ a.day ≤ b.day)))

instance (a b : Date) : Decidable (dateLe a b) :=
  inferInstanceAs (Decidable (_ ∨ _))

/-- The order `bulletins.sort()` sorts by, restricted to its date component. -/
def bulLe (p q : Date × StoredDoc) : Prop := dateLe p.1 q.1

instance : DecidableRel bulLe := fun p q =>
  inferInstanceAs (Decidable (dateLe p.1 q.1))

instance : IsTotal (Date × StoredDoc) bulLe :=
  ⟨fun p q => by unfold bulLe dateLe; omega⟩

instance : IsTrans (Date × StoredDoc) bulLe :=
  ⟨fun p q r h1 h2 => by unfold bulLe dateLe at h1 h2 ⊢; omega⟩

/-- `bulletins.sort()` (line 205), modelled as a stable sort by date. -/
def sortBulletins (l : List (Date × StoredDoc)) : List (Date × StoredDoc) :=
  List.insertionSort bulLe l

/-- The per-bulletin record: (final action date, filing date), `None`
standing for the rendered `"N/A"`. -/
abbrev Rec := Option Date × Option Date

/-- Lines 213–216: the dict value built from the extractor's two slots. -/
def recOf (dates : List (Option Date)) : Rec :=
  ((dates.getD 0 none), (dates.getD 1 none))

/-- Python dict assignment `m[k] = v`: update in place if the key is present,
else append (key-insertion order). -/
def upsert : List (Date × Rec) → Date → Rec → List (Date × Rec)
  | [], k, v => [(k, v)]
  | (k0, v0) :: rest, k, v =>
    if k0 = k then (k0, v) :: rest else (k0, v0) :: upsert rest k v

/-- The extraction loop of lines 208–216 over the sorted bulletins; an
uncaught `AttributeError` from the extractor propagates. -/
def buildDict : List (Date × StoredDoc) → List (Date × Rec) →
    Except String (List (Date × Rec))
  | [], acc => .ok acc
  | (bd, doc) :: rest, acc =>
    match extract_eb1_final_action_and_filing_dates_from_html doc.content bd with
    | .error e => .error e
    | .ok dates =>
      if dates.isEmpty then buildDict rest acc
      else buildDict rest (upsert acc bd (recOf dates))

/-- The pure core of `collect_and_plot_eb1_dates` (lines 192–216): filter and
date the stored files, sort chronologically, extract each, and collect the
date-keyed records (plotting omitted). -/
def collect_eb1_dates (now_year past_years : Int) (docs : List StoredDoc) :
    Except String (List (Date × Rec)) :=
  match collectBulletins now_year past_years docs with
  | .error e => .error e
  | .ok bl => buildDict (sortBulletins bl) []

/-! ## Derived notions used by the statements -/

/-- Conjunction of the two row guards of lines 145–146: the row is a `"1st"`
row and has a cell at the India column index. -/
def rowQualifies (idx : Nat) (cells : List String) : Bool :=
  isFirst1stCell cells && rowReaches idx cells

/-- The contribution of one table to the document scan: the head of its
extraction when non-empty (`extracted[0]` under `if extracted:`), `none`
when the table yields no result (and `none` as well on the error path,
which the statements using it exclude). -/
def firstResult (bd : Date) (t : Table) : Option (Option Date) :=
  match extract_eb1_dates_from_table t bd with
  | .ok (x :: _) => some x
  | _ => none

/-- Modelled from the spec claim for C3: the category row is the first data
row whose first trimmed cell equals `"1st"` case-insensitively, with no
regard to its cell count. -/
def claimCategoryRow (data_rows : List (List String)) : Option (List String) :=
  data_rows.find? isFirst1stCell

/-! ## Structural lemmas -/

lemma pyNextIndex_none_iff (p : String → Bool) :
    ∀ (l : List String) (i : Nat),
      pyNextIndex p i l = none ↔ ∀ x ∈ l, p x = false
  | [], i => by simp [pyNextIndex]
  | h :: t, i => by
    by_cases hp : p h
    · simp [pyNextIndex, hp]
    · simp [pyNextIndex, hp, pyNextIndex_none_iff p t (i + 1)]

lemma pyNextIndex_some_spec (p : String → Bool) :
    ∀ (l : List String) (i k : Nat), pyNextIndex p i l = some k →
      i ≤ k ∧ k - i < l.length ∧ p (l.getD (k - i) "") = true ∧
        ∀ j < k - i, p (l.getD j "") = false
  | [], i, k => by simp [pyNextIndex]
  | h :: t, i, k => by
    by_cases hp : p h
    · intro he
      simp [pyNextIndex, hp] at he
      subst he
      refine ⟨Nat.le_refl _, by simp, by simpa [Nat.sub_self] using hp, ?_⟩
      intro j hj
      omega
    · intro he
      simp [pyNextIndex, hp] at he
      obtain ⟨h1, h2, h3, h4⟩ := pyNextIndex_some_spec p t (i + 1) k he
      refine ⟨by omega, by simp; omega, ?_, ?_⟩
      · have hk : k - i = (k - (i + 1)) + 1 := by omega
        rw [hk]
        simpa using h3
      · intro j hj
        cases j with
        | zero => simpa using hp
        | succ j2 =>
          have : j2 < k - (i + 1) := by omega
          simpa using h4 j2 this

lemma scanRows_cons_skip (idx : Nat) (bd : Date) (cells : List String)
    (rest : List (List String)) (h : rowQualifies idx cells = false) :
    scanRows idx bd (cells :: rest) = scanRows idx bd rest := by
  by_cases h1 : isFirst1stCell cells <;> by_cases h2 : rowReaches idx cells <;>
    simp_all [scanRows, rowQualifies]

lemma scanRows_cons_hit (idx : Nat) (bd : Date) (cells : List String)
    (rest : List (List String)) (h : rowQualifies idx cells = true) :
    scanRows idx bd (cells :: rest) =
      [decodeIndiaCode (cellText (cells.getD idx "")) bd] := by
  simp only [rowQualifies, Bool.and_eq_true] at h
  simp [scanRows, h.1, h.2]

lemma scanRows_eq_nil (idx : Nat) (bd : Date) :
    ∀ rows, (∀ c ∈ rows, rowQualifies idx c = false) → scanRows idx bd rows = []
  | [], _ => rfl
  | c :: rest, h => by
    rw [scanRows_cons_skip idx bd c rest (h c (by simp))]
    exact scanRows_eq_nil idx bd rest fun x hx => h x (by simp [hx])

lemma scanRows_first (idx : Nat) (bd : Date) :
    ∀ (pre : List (List String)) (cells : List String) (post : List (List String)),
      (∀ c ∈ pre, rowQualifies idx c = false) → rowQualifies idx cells = true →
      scanRows idx bd (pre ++ cells :: post) =
        [decodeIndiaCode (cellText (cells.getD idx "")) bd]
  | [], cells, post, _, hq => by simpa using scanRows_cons_hit idx bd cells post hq
  | c :: pre, cells, post, hpre, hq => by
    rw [List.cons_append, scanRows_cons_skip idx bd c _ (hpre c (by simp))]
    exact scanRows_first idx bd pre cells post (fun x hx => hpre x (by simp [hx])) hq

lemma extract_table_ok (t : Table) (bd : Date) (h : t.rows ≠ []) :
    ∃ l, extract_eb1_dates_from_table t bd = .ok l := by
  rcases ht : t.rows with _ | ⟨hr, dr⟩
  · exact absurd ht h
  · rcases hpn : pyNextIndex isIndiaHeader 0 hr with _ | idx
    · exact ⟨[], by simp [extract_eb1_dates_from_table, ht, hpn]⟩
    · exact ⟨scanRows idx bd dr, by simp [extract_eb1_dates_from_table, ht, hpn]⟩

lemma scanTables_eq (bd : Date) :
    ∀ (tables : List Table) (acc : List (Option Date)),
      acc.length < 2 → (∀ t ∈ tables, t.rows ≠ []) →
      scanTables bd tables acc =
        .ok (acc ++ (tables.filterMap (firstResult bd)).take (2 - acc.length))
  | [], acc, _, _ => by simp [scanTables]
  | t :: ts, acc, hacc, hrows => by
    obtain ⟨l, hl⟩ := extract_table_ok t bd (hrows t (by simp))
    have hts : ∀ t2 ∈ ts, t2.rows ≠ [] := fun t2 ht2 => hrows t2 (by simp [ht2])
    cases l with
    | nil =>
      have hfr : firstResult bd t = none := by simp [firstResult, hl]
      rw [show scanTables bd (t :: ts) acc = scanTables bd ts acc by
        simp [scanTables, hl]]
      rw [scanTables_eq bd ts acc hacc hts]
      simp [List.filterMap_cons, hfr]
    | cons x xs =>
      have hfr : firstResult bd t = some x := by simp [firstResult, hl]
      by_cases hlen : (acc ++ [x]).length = 2
      · have ha : acc.length = 1 := by simpa using hlen
        rw [show scanTables bd (t :: ts) acc = .ok (acc ++ [x]) by
          simp [scanTables, hl, hlen]]
        simp [List.filterMap_cons, hfr, ha]
      · have ha : acc.length = 0 := by
          simp only [List.length_append, List.length_cons, List.length_nil] at hlen
          omega
        rw [show scanTables bd (t :: ts) acc = scanTables bd ts (acc ++ [x]) by
          simp only [scanTables, hl]
          rw [if_neg hlen]]
        rw [scanTables_eq bd ts (acc ++ [x]) (by simp [ha]) hts]
        simp [List.filterMap_cons, hfr, ha, List.take_succ_cons, List.append_assoc]

lemma extract_html_eq (bd : Date) (tables : List Table)
    (h : ∀ t ∈ tables, t.rows ≠ []) :
    extract_eb1_final_action_and_filing_dates_from_html tables bd =
      .ok (padTwo ((tables.filterMap (firstResult bd)).take 2)) := by
  unfold extract_eb1_final_action_and_filing_dates_from_html
  rw [scanTables_eq bd tables [] (by simp) h]
  simp

lemma padTwo_length (l : List (Option Date)) (h : l.length ≤ 2) :
    (padTwo l).length = 2 := by
  simp [padTwo]
  omega

lemma pyIsDigit_of_pyInt (s : String) (y : Nat) (h : pyInt s = some y) :
    pyIsDigit s = true := by
  unfold pyInt at h
  by_cases hc : (!s.isEmpty && s.data.all Char.isDigit) = true
  · rw [Bool.and_eq_true] at hc
    simp only [pyIsDigit, Bool.and_eq_true]
    refine ⟨hc.1, ?_⟩
    rw [List.all_eq_true] at hc ⊢
    intro c hcm
    simp [pyIsDigitChar, hc.2 c hcm]
  · rw [if_neg hc] at h
    exact absurd h (by simp)

lemma keyOf_eq_of_parsed (now_year past_years : Int) (d : StoredDoc) (y : Nat)
    (hpi : pyInt d.yearSeg = some y) :
    keyOf now_year past_years d =
      if (y : Int) < now_year - past_years then .ok none
      else if pyEndsWith d.fileName ".html" &&
          MONTHS.contains (pyReplace d.fileName ".html" "") then
        if 1 ≤ y && y ≤ 9999 then
          .ok (some (⟨(y : Int),
            MONTHS.findIdx (fun m => m == pyReplace d.fileName ".html" "") + 1, 1⟩, d))
        else .error "ValueError"
      else .ok none := by
  have hdig := pyIsDigit_of_pyInt _ _ hpi
  simp [keyOf, hdig, hpi]

lemma upsert_keys :
    ∀ (m : List (Date × Rec)) (k : Date) (v : Rec),
      (upsert m k v).map Prod.fst =
        if k ∈ m.map Prod.fst then m.map Prod.fst else m.map Prod.fst ++ [k]
  | [], k, v => by simp [upsert]
  | (k0, v0) :: rest, k, v => by
    by_cases hk : k0 = k
    · subst hk
      simp [upsert]
    · have hne : ¬(k = k0) := fun he => hk he.symm
      by_cases hm : k ∈ rest.map Prod.fst <;>
        simp [upsert, hk, upsert_keys rest k v, hm, hne]

lemma buildDict_sorted :
    ∀ (l : List (Date × StoredDoc)) (acc out : List (Date × Rec)),
      List.Pairwise dateLe (acc.map Prod.fst ++ l.map Prod.fst) →
      buildDict l acc = .ok out → List.Pairwise dateLe (out.map Prod.fst)
  | [], acc, out, hp, he => by
    simp [buildDict] at he
    subst he
    simpa using hp
  | (bd, doc) :: rest, acc, out, hp, he => by
    have hsub : List.Sublist (acc.map Prod.fst ++ rest.map Prod.fst)
        (acc.map Prod.fst ++ ((bd, doc) :: rest).map Prod.fst) := by
      exact (List.sublist_cons_self bd (rest.map Prod.fst)).append_left
        (acc.map Prod.fst)
    rcases hx : extract_eb1_final_action_and_filing_dates_from_html doc.content bd with
      e | dates
    · simp [buildDict, hx] at he
    · by_cases hni : dates.isEmpty
      · have he2 : buildDict rest acc = .ok out := by simpa [buildDict, hx, hni] using he
        exact buildDict_sorted rest acc out (hp.sublist hsub) he2
      · have he2 : buildDict rest (upsert acc bd (recOf dates)) = .ok out := by
          simpa [buildDict, hx, hni] using he
        refine buildDict_sorted rest (upsert acc bd (recOf dates)) out ?_ he2
        rw [upsert_keys]
        by_cases hmem : bd ∈ acc.map Prod.fst
        · simp only [hmem, if_true]
          exact hp.sublist hsub
        · simp only [hmem, if_false]
          simpa [List.append_assoc] using hp

/-! ## Claim theorems -/

/-- C1: whenever the India-column cell of a `"1st"` row is read, the text
`"C"` decodes to the supplied bulletin date, `"U"` decodes to absent, any
other text is handed to the compact `%d%b%y` parse (so `"15JAN24"` yields
2024-01-15), and a text the parse rejects decodes to absent; the decoding
is a total function, so no failure raises. -/
theorem decode_india_code_spec (bd : Date) (code : String)
    (hC : code ≠ "C") (hU : code ≠ "U") :
    decodeIndiaCode "C" bd = some bd ∧
    decodeIndiaCode "U" bd = none ∧
    decodeIndiaCode code bd = pyStrptimeDMY code ∧
    (pyStrptimeDMY code = none → decodeIndiaCode code bd = none) ∧
    pyStrptimeDMY "15JAN24" = some ⟨2024, 1, 15⟩ := by
  have h3 : decodeIndiaCode code bd = pyStrptimeDMY code := by
    simp [decodeIndiaCode, hC, hU]
  exact ⟨rfl, rfl, h3, fun h => h3.trans h, by decide⟩

theorem decode_india_code_spec_witness :
    decodeIndiaCode "15JAN24" ⟨2024, 3, 1⟩ = pyStrptimeDMY "15JAN24" :=
  (decode_india_code_spec ⟨2024, 3, 1⟩ "15JAN24" (by decide) (by decide)).2.2.1

/-- C2 counterexample: a document whose first table has no row at all makes
the extractor raise `AttributeError` (modelled as `Except.error`), so there
is no two-slot output for this document even though the second table could
have produced one — "the extractor's output always has exactly two slots"
fails as stated. -/
theorem extract_html_not_always_two_slots :
    extract_eb1_final_action_and_filing_dates_from_html
      [⟨[]⟩, ⟨[["EB", "INDIA"], ["1st", "15JAN24"]]⟩] ⟨2024, 3, 1⟩ =
      .error "AttributeError" := rfl

/-- C2 amended: for every document in which every table has at least one
row, the output is the first-results of the tables in document order,
truncated to the first two (scanning stops once two results are produced)
and padded with absent to exactly two slots, in the order (final action,
filing). -/
theorem extract_html_slot_assignment (bd : Date) (tables : List Table)
    (h : ∀ t ∈ tables, t.rows ≠ []) :
    extract_eb1_final_action_and_filing_dates_from_html tables bd =
      .ok (padTwo ((tables.filterMap (firstResult bd)).take 2)) ∧
    (padTwo ((tables.filterMap (firstResult bd)).take 2)).length = 2 :=
  ⟨extract_html_eq bd tables h,
   padTwo_length _ (by simp [List.length_take])⟩

theorem extract_html_slot_assignment_witness :
    extract_eb1_final_action_and_filing_dates_from_html
      [⟨[["EB", "INDIA"], ["1st", "C"]]⟩] ⟨2024, 3, 1⟩ =
      .ok (padTwo ((List.filterMap (firstResult ⟨2024, 3, 1⟩)
        [⟨[["EB", "INDIA"], ["1st", "C"]]⟩]).take 2)) ∧
    (padTwo ((List.filterMap (firstResult ⟨2024, 3, 1⟩)
      [⟨[["EB", "INDIA"], ["1st", "C"]]⟩]).take 2)).length = 2 :=
  extract_html_slot_assignment ⟨2024, 3, 1⟩ [⟨[["EB", "INDIA"], ["1st", "C"]]⟩]
    (by decide)

/-- C3 counterexample: with header `["EB", "INDIA"]` the India column index
is 1; the first data row whose first cell is `"1st"` is `["1st"]`, which has
no cell at index 1, yet the extractor returns the date decoded from the
second `"1st"` row — so the row the value is read from is not the first
`"1st"` row, contradicting the claim (under which this table would have
yielded no concrete date). -/
theorem category_row_not_first_1st_row :
    claimCategoryRow [["1st"], ["1st", "15JAN24"]] = some ["1st"] ∧
    rowReaches 1 ["1st"] = false ∧
    pyNextIndex isIndiaHeader 0 ["EB", "INDIA"] = some 1 ∧
    extract_eb1_dates_from_table ⟨[["EB", "INDIA"], ["1st"], ["1st", "15JAN24"]]⟩
      ⟨2024, 3, 1⟩ = .ok [some ⟨2024, 1, 15⟩] :=
  ⟨rfl, rfl, rfl, rfl⟩

/-- C3 amended: the India column is the first header cell whose trimmed text
contains `"INDIA"` case-insensitively (no such cell → the table yields no
result), and the category row actually read is the first row after the
header whose first trimmed cell equals `"1st"` case-insensitively AND which
has more cells than the India column index. -/
theorem extract_table_first_qualifying_row :
    (∀ (t : Table) (bd : Date) (hr : List String) (dr : List (List String)),
        t.rows = hr :: dr → (∀ h ∈ hr, isIndiaHeader h = false) →
        extract_eb1_dates_from_table t bd = .ok []) ∧
    (∀ (t : Table) (bd : Date) (hr : List String) (dr : List (List String)) (idx : Nat),
        t.rows = hr :: dr → pyNextIndex isIndiaHeader 0 hr = some idx →
        (isIndiaHeader (hr.getD idx "") = true ∧
          ∀ j < idx, isIndiaHeader (hr.getD j "") = false) ∧
        ∀ (pre : List (List String)) (cells : List String) (post : List (List String)),
          dr = pre ++ cells :: post →
          (∀ c ∈ pre, rowQualifies idx c = false) → rowQualifies idx cells = true →
          extract_eb1_dates_from_table t bd =
            .ok [decodeIndiaCode (cellText (cells.getD idx "")) bd]) := by
  constructor
  · intro t bd hr dr ht hno
    have hpn : pyNextIndex isIndiaHeader 0 hr = none :=
      (pyNextIndex_none_iff _ hr 0).mpr hno
    simp [extract_eb1_dates_from_table, ht, hpn]
  · intro t bd hr dr idx ht hpn
    obtain ⟨h0, hlt, hp, hjs⟩ := pyNextIndex_some_spec isIndiaHeader hr 0 idx hpn
    refine ⟨⟨by simpa using hp, fun j hj => by simpa using hjs j (by simpa using hj)⟩, ?_⟩
    intro pre cells post hdr hpre hq
    subst hdr
    simp [extract_eb1_dates_from_table, ht, hpn,
      scanRows_first idx bd pre cells post hpre hq]

theorem extract_table_first_qualifying_row_witness :
    extract_eb1_dates_from_table ⟨[["EB", "CHINA"], ["1st", "C"]]⟩ ⟨2024, 3, 1⟩ = .ok [] ∧
    (isIndiaHeader ((["EB", "INDIA"] : List String).getD 1 "") = true ∧
      ∀ j < 1, isIndiaHeader ((["EB", "INDIA"] : List String).getD j "") = false) ∧
    extract_eb1_dates_from_table ⟨[["EB", "INDIA"], ["1st"], ["1st", "15JAN24"]]⟩
      ⟨2024, 3, 1⟩ =
      .ok [decodeIndiaCode (cellText ((["1st", "15JAN24"] : List String).getD 1 ""))
        ⟨2024, 3, 1⟩] :=
  ⟨extract_table_first_qualifying_row.1 ⟨[["EB", "CHINA"], ["1st", "C"]]⟩ ⟨2024, 3, 1⟩
      ["EB", "CHINA"] [["1st", "C"]] rfl (by decide),
   (extract_table_first_qualifying_row.2 ⟨[["EB", "INDIA"], ["1st"], ["1st", "15JAN24"]]⟩
      ⟨2024, 3, 1⟩ ["EB", "INDIA"] [["1st"], ["1st", "15JAN24"]] 1 rfl rfl).1,
   (extract_table_first_qualifying_row.2 ⟨[["EB", "INDIA"], ["1st"], ["1st", "15JAN24"]]⟩
      ⟨2024, 3, 1⟩ ["EB", "INDIA"] [["1st"], ["1st", "15JAN24"]] 1 rfl rfl).2
     [["1st"]] ["1st", "15JAN24"] [] rfl (by decide) (by decide)⟩

/-- C4 counterexample: a table with an India column but no `"1st"` row
returns the empty list (no result) rather than an absent result, so it does
not consume a slot: in a two-table document the second table's date lands in
the FIRST (final action) slot, where the claim predicts (absent, date). -/
theorem no_1st_row_india_table_consumes_no_slot :
    extract_eb1_dates_from_table ⟨[["EB", "INDIA"], ["2nd", "01FEB24"]]⟩ ⟨2024, 3, 1⟩ =
      .ok [] ∧
    ([] : List (Option Date)) ≠ [none] ∧
    extract_eb1_final_action_and_filing_dates_from_html
      [⟨[["EB", "INDIA"], ["2nd", "01FEB24"]]⟩, ⟨[["EB", "INDIA"], ["1st", "15JAN24"]]⟩]
      ⟨2024, 3, 1⟩ = .ok [some ⟨2024, 1, 15⟩, none] :=
  ⟨rfl, by decide, rfl⟩

/-- C4 amended: a table that has an India column but no data row whose first
cell is `"1st"` yields no result (the empty list), so document scanning
skips it: it contributes nothing and consumes no slot. -/
theorem india_table_without_1st_row_skipped (t : Table) (bd : Date)
    (hr : List String) (dr : List (List String)) (idx : Nat)
    (ht : t.rows = hr :: dr) (hpn : pyNextIndex isIndiaHeader 0 hr = some idx)
    (hno : ∀ c ∈ dr, isFirst1stCell c = false) :
    extract_eb1_dates_from_table t bd = .ok [] ∧
    ∀ (ts : List Table) (acc : List (Option Date)),
      scanTables bd (t :: ts) acc = scanTables bd ts acc := by
  have hq : ∀ c ∈ dr, rowQualifies idx c = false := fun c hc => by
    simp [rowQualifies, hno c hc]
  have hok : extract_eb1_dates_from_table t bd = .ok [] := by
    simp [extract_eb1_dates_from_table, ht, hpn, scanRows_eq_nil idx bd dr hq]
  exact ⟨hok, fun ts acc => by simp [scanTables, hok]⟩

theorem india_table_without_1st_row_skipped_witness :
    extract_eb1_dates_from_table ⟨[["EB", "INDIA"], ["2nd", "C"]]⟩ ⟨2024, 3, 1⟩ =
      .ok [] ∧
    scanTables ⟨2024, 3, 1⟩ [⟨[["EB", "INDIA"], ["2nd", "C"]]⟩] [] =
      scanTables ⟨2024, 3, 1⟩ [] [] :=
  ⟨(india_table_without_1st_row_skipped ⟨[["EB", "INDIA"], ["2nd", "C"]]⟩ ⟨2024, 3, 1⟩
      ["EB", "INDIA"] [["2nd", "C"]] 1 rfl rfl (by decide)).1,
   (india_table_without_1st_row_skipped ⟨[["EB", "INDIA"], ["2nd", "C"]]⟩ ⟨2024, 3, 1⟩
      ["EB", "INDIA"] [["2nd", "C"]] 1 rfl rfl (by decide)).2 [] []⟩

/-- C5: the code, not the claim, is at fault here — a document containing a
table element with no rows at all (markup like a bare table tag) makes
`table.find` return `None` and `None.find_all` raise `AttributeError`, which
propagates out of the extractor instead of degrading to absent. -/
theorem rowless_table_raises_attribute_error :
    extract_eb1_final_action_and_filing_dates_from_html [⟨[]⟩] ⟨2025, 1, 1⟩ =
      .error "AttributeError" := rfl

/-- C6: the end-to-end example — first table `"1st"` India cell `"15JAN24"`,
second table `"1st"` India cell `"01FEB24"`, bulletin date 2024-03-01 —
extracts final action 2024-01-15 and filing 2024-02-01. -/
theorem end_to_end_example :
    extract_eb1_final_action_and_filing_dates_from_html
      [⟨[["Employment-Based", "CHINA", "INDIA", "MEXICO", "PHILIPPINES"],
         ["1st", "C", "15JAN24", "C", "C"]]⟩,
       ⟨[["Employment-Based", "CHINA", "INDIA", "MEXICO", "PHILIPPINES"],
         ["1st", "C", "01FEB24", "C", "C"]]⟩]
      ⟨2024, 3, 1⟩ = .ok [some ⟨2024, 1, 15⟩, some ⟨2024, 2, 1⟩] := rfl

/-- C7: a document with zero tables, or whose every table has a header row
(so no crash) with no India column in it, yields (absent, absent) without
raising. -/
theorem degenerate_documents_yield_absent :
    (∀ bd : Date,
        extract_eb1_final_action_and_filing_dates_from_html [] bd = .ok [none, none]) ∧
    (∀ (bd : Date) (tables : List Table),
        (∀ t ∈ tables, t.rows ≠ [] ∧ ∀ h ∈ t.rows.headD [], isIndiaHeader h = false) →
        extract_eb1_final_action_and_filing_dates_from_html tables bd =
          .ok [none, none]) := by
  constructor
  · intro bd
    rfl
  · intro bd tables h
    have hr : ∀ t ∈ tables, t.rows ≠ [] := fun t ht => (h t ht).1
    rw [extract_html_eq bd tables hr]
    have hfm : tables.filterMap (firstResult bd) = [] := by
      rw [List.filterMap_eq_nil_iff]
      intro t ht
      obtain ⟨hne, hnoi⟩ := h t ht
      rcases hrows : t.rows with _ | ⟨hrw, dr⟩
      · exact absurd hrows hne
      · have hpn : pyNextIndex isIndiaHeader 0 hrw = none :=
          (pyNextIndex_none_iff _ hrw 0).mpr (by simpa [hrows] using hnoi)
        simp [firstResult, extract_eb1_dates_from_table, hrows, hpn]
    rw [hfm]
    rfl

theorem degenerate_documents_yield_absent_witness :
    extract_eb1_final_action_and_filing_dates_from_html [] ⟨2025, 6, 1⟩ =
      .ok [none, none] ∧
    extract_eb1_final_action_and_filing_dates_from_html [⟨[["EB", "CHINA"]]⟩]
      ⟨2025, 6, 1⟩ = .ok [none, none] :=
  ⟨degenerate_documents_yield_absent.1 ⟨2025, 6, 1⟩,
   degenerate_documents_yield_absent.2 ⟨2025, 6, 1⟩ [⟨[["EB", "CHINA"]]⟩] (by decide)⟩

/-- C8: whenever the corpus scan produces a series, that series is
non-decreasing in bulletin date, for every input set of documents in every
enumeration order. -/
theorem collect_eb1_dates_sorted (now_year past_years : Int) (docs : List StoredDoc)
    (series : List (Date × Rec))
    (h : collect_eb1_dates now_year past_years docs = .ok series) :
    List.Pairwise dateLe (series.map Prod.fst) := by
  rcases hcb : collectBulletins now_year past_years docs with e | bl
  · simp [collect_eb1_dates, hcb] at h
  · have h2 : buildDict (sortBulletins bl) [] = .ok series := by
      simpa [collect_eb1_dates, hcb] using h
    have hs : List.Pairwise bulLe (sortBulletins bl) :=
      List.sorted_insertionSort bulLe bl
    refine buildDict_sorted _ [] series ?_ h2
    simpa using hs.map Prod.fst fun a b hab => hab

theorem collect_eb1_dates_sorted_witness :
    List.Pairwise dateLe
      (([(⟨2023, 4, 1⟩, ((none, none) : Rec)), (⟨2024, 3, 1⟩, (none, none))]).map
        Prod.fst) :=
  collect_eb1_dates_sorted 2025 2
    [⟨"2024", "march.html", []⟩, ⟨"2023", "april.html", []⟩]
    [(⟨2023, 4, 1⟩, (none, none)), (⟨2024, 3, 1⟩, (none, none))] rfl

/-- C9 counterexample: the scan's filtering is not a total silent filter.
A year directory `"99999"` passes `isdigit` and the window check, but
`datetime(99999, 3, 1)` at line 201 raises `ValueError` (years above 9999
are unsupported), crashing the scan instead of including the document as
the claim's "includes exactly" requires; and a year segment `"2²24"` is
`isdigit`-true (the superscript is of digit class) yet `int()` raises
`ValueError` at line 195, so it is not "silently excluded rather than
raising" either. -/
theorem digit_year_segments_can_crash_scan :
    keyOf 2025 2 ⟨"99999", "march.html", []⟩ = .error "ValueError" ∧
    keyOf 2025 2 ⟨"2²24", "march.html", []⟩ = .error "ValueError" ∧
    collect_eb1_dates 2025 2 [⟨"99999", "march.html", []⟩] = .error "ValueError" :=
  ⟨rfl, rfl, rfl⟩

/-- C9 amended: among stored files whose year segment `int()` can parse to a
value in the supported year range 1–9999, the scan includes exactly those
with year at least (current year − windowYears) and a recognized
`<month>.html` name; with window 2 in year 2025 anything parsed to 2022 or
earlier is silently excluded, as is a year segment that fails `isdigit` or a
file with an unrecognized month name.  (A digit-classed year segment that
`int()` rejects, or a parsed year outside 1–9999 that survives the window
filter, instead raises `ValueError` — the counterexample.) -/
theorem corpus_window_filter :
    (∀ (now_year past_years : Int) (d : StoredDoc) (y : Nat),
        pyInt d.yearSeg = some y → 1 ≤ y → y ≤ 9999 →
        ((∃ p, keyOf now_year past_years d = .ok (some p)) ↔
          (now_year - past_years ≤ (y : Int) ∧
           pyEndsWith d.fileName ".html" = true ∧
           MONTHS.contains (pyReplace d.fileName ".html" "") = true))) ∧
    (∀ (d : StoredDoc) (y : Nat), pyInt d.yearSeg = some y → (y : Int) ≤ 2022 →
        keyOf 2025 2 d = .ok none) ∧
    (∀ (now_year past_years : Int) (d : StoredDoc), pyIsDigit d.yearSeg = false →
        keyOf now_year past_years d = .ok none) ∧
    (∀ (now_year past_years : Int) (d : StoredDoc) (y : Nat),
        pyInt d.yearSeg = some y → now_year - past_years ≤ (y : Int) →
        MONTHS.contains (pyReplace d.fileName ".html" "") = false →
        keyOf now_year past_years d = .ok none) ∧
    keyOf 2025 2 ⟨"2022", "march.html", []⟩ = .ok none ∧
    keyOf 2025 2 ⟨"2o22", "march.html", []⟩ = .ok none ∧
    keyOf 2025 2 ⟨"2024", "tuesday.html", []⟩ = .ok none := by
  refine ⟨?_, ?_, ?_, ?_, rfl, rfl, rfl⟩
  · intro now_year past_years d y hpi h1 h9
    rw [keyOf_eq_of_parsed now_year past_years d y hpi]
    constructor
    · rintro ⟨p, hp⟩
      by_cases h2 : (y : Int) < now_year - past_years
      · rw [if_pos h2] at hp
        exact absurd hp (by simp)
      · rw [if_neg h2] at hp
        by_cases h34 : (pyEndsWith d.fileName ".html" &&
            MONTHS.contains (pyReplace d.fileName ".html" "")) = true
        · rw [Bool.and_eq_true] at h34
          exact ⟨by omega, h34.1, h34.2⟩
        · rw [if_neg h34] at hp
          exact absurd hp (by simp)
    · rintro ⟨hw, h3, h4⟩
      have h2 : ¬((y : Int) < now_year - past_years) := by omega
      rw [if_neg h2, if_pos (by rw [h3, h4]; rfl), if_pos (by simp [h1, h9])]
      exact ⟨_, rfl⟩
  · intro d y hpi hle
    rw [keyOf_eq_of_parsed 2025 2 d y hpi,
      if_pos (show (y : Int) < 2025 - 2 by omega)]
  · intro now_year past_years d h
    simp [keyOf, h]
  · intro now_year past_years d y hpi hge h4
    rw [keyOf_eq_of_parsed now_year past_years d y hpi, if_neg (by omega),
      if_neg (by rw [h4]; simp)]

theorem corpus_window_filter_witness :
    (∃ p, keyOf 2025 2 ⟨"2024", "march.html", []⟩ = .ok (some p)) ∧
    keyOf 2025 2 ⟨"2020", "march.html", []⟩ = .ok none :=
  ⟨(corpus_window_filter.1 2025 2 ⟨"2024", "march.html", []⟩ 2024 rfl
      (by decide) (by decide)).mpr (by decide),
   corpus_window_filter.2.1 ⟨"2020", "march.html", []⟩ 2020 rfl (by decide)⟩

/-- C10: a `"1st"` row with too few cells to reach the India column index
does not stop the scan: the row is passed over, the value is taken from the
first later `"1st"` row with enough cells, and only when no row qualifies
does the table yield no result. -/
theorem scan_continues_past_short_1st_rows :
    (∀ (idx : Nat) (bd : Date) (cells : List String) (rest : List (List String)),
        isFirst1stCell cells = true → rowReaches idx cells = false →
        scanRows idx bd (cells :: rest) = scanRows idx bd rest) ∧
    (∀ (idx : Nat) (bd : Date) (pre : List (List String)) (cells : List String)
        (post : List (List String)),
        (∀ c ∈ pre, rowQualifies idx c = false) → rowQualifies idx cells = true →
        scanRows idx bd (pre ++ cells :: post) =
          [decodeIndiaCode (cellText (cells.getD idx "")) bd]) ∧
    (∀ (idx : Nat) (bd : Date) (rows : List (List String)),
        (∀ c ∈ rows, rowQualifies idx c = false) → scanRows idx bd rows = []) :=
  ⟨fun idx bd cells rest h1 h2 =>
      scanRows_cons_skip idx bd cells rest (by simp [rowQualifies, h1, h2]),
   fun idx bd pre cells post => scanRows_first idx bd pre cells post,
   fun idx bd rows => scanRows_eq_nil idx bd rows⟩

theorem scan_continues_past_short_1st_rows_witness :
    scanRows 2 ⟨2024, 3, 1⟩ [["1st", "C"]] = scanRows 2 ⟨2024, 3, 1⟩ [] ∧
    scanRows 2 ⟨2024, 3, 1⟩ [["1st", "C"], ["1st", "C", "15JAN24"]] =
      [decodeIndiaCode (cellText ((["1st", "C", "15JAN24"] : List String).getD 2 ""))
        ⟨2024, 3, 1⟩] ∧
    scanRows 2 ⟨2024, 3, 1⟩ [["1st", "C"]] = [] :=
  ⟨scan_continues_past_short_1st_rows.1 2 ⟨2024, 3, 1⟩ ["1st", "C"] []
      (by decide) (by decide),
   scan_continues_past_short_1st_rows.2.1 2 ⟨2024, 3, 1⟩ [["1st", "C"]]
      ["1st", "C", "15JAN24"] [] (by decide) (by decide),
   scan_continues_past_short_1st_rows.2.2 2 ⟨2024, 3, 1⟩ [["1st", "C"]] (by decide)⟩

end VisaBulletins
